import Mathlib

set_option linter.unusedVariables false

/-!
Verification of the dealership-management server handlers.

The handlers operate on a relational store (tables: vehicles, vendors,
expenses, transactions).  We embed each table as a list of rows; `id` is the
primary key of every table (SERIAL in the schema), so queries that group or
join by `id` are embedded as filters/maps keyed on that field.  SQL `numeric`
amounts (stored as strings, converted with `parseFloat`) are embedded as `Rat`;
timestamps as `Int` (seconds).  JavaScript truthiness tests that the handlers
perform on nullable values are embedded explicitly: a number is truthy iff it
is nonzero, a string iff it is nonempty, `null`/`undefined` are falsy, and a
`Date` object is always truthy.
-/

inductive VehicleStatus
  | acquired
  | reconditioning
  | listed
  | sold
  | archived
deriving DecidableEq, Repr

inductive ExpenseType
  | acquisition
  | reconditioning
  | marketing
  | transport
  | storage
  | inspection
  | repairs
  | detailing
  | other
deriving DecidableEq, Repr

inductive TransactionType
  | expense
  | sale
  | refund
deriving DecidableEq, Repr

/-- Row of the `vehicles` table (schema fields of §3). -/
structure Vehicle where
  id : Int
  vin : String
  make : String
  model : String
  year : Int
  color : String
  mileage : Int
  status : VehicleStatus
  acquisition_date : Int
  acquisition_cost : Rat
  listing_price : Option Rat
  sale_price : Option Rat
  sale_date : Option Int
  notes : Option String
  created_at : Int
  updated_at : Int
deriving DecidableEq, Repr

/-- Row of the `vendors` table. -/
structure Vendor where
  id : Int
  name : String
  contact_info : Option String
  created_at : Int
deriving DecidableEq, Repr

/-- Row of the `expenses` table. -/
structure Expense where
  id : Int
  vehicle_id : Int
  vendor_id : Option Int
  amount : Rat
  expense_type : ExpenseType
  description : String
  expense_date : Int
  created_at : Int
deriving DecidableEq, Repr

/-- Row of the `transactions` table. -/
structure Transaction where
  id : Int
  vehicle_id : Int
  type : TransactionType
  amount : Rat
  description : String
  transaction_date : Int
  created_at : Int
deriving DecidableEq, Repr

/-- The relational store.  `nextExpenseId` / `nextTransactionId` model the
SERIAL id generators used by `.returning()` after an insert. -/
structure Store where
  vehicles : List Vehicle
  vendors : List Vendor
  expenses : List Expense
  transactions : List Transaction
  nextExpenseId : Int
  nextTransactionId : Int
deriving DecidableEq, Repr

/-- `FinancialReportFilters`: all fields optional. -/
structure FinancialReportFilters where
  start_date : Option Int
  end_date : Option Int
  status : Option VehicleStatus
  make : Option String
  model : Option String
deriving DecidableEq, Repr

/-- The empty filter set (every field absent). -/
def noFilters : FinancialReportFilters :=
  { start_date := none, end_date := none, status := none, make := none, model := none }

/-- JS truthiness of an optional string filter field: present and nonempty. -/
def strFilterTruthy : Option String → Bool
  | none => false
  | some s => !(s = "")

/-- Result row shape `ProfitLoss` of the schema. -/
structure ProfitLoss where
  vehicle_id : Int
  acquisition_cost : Rat
  total_expenses : Rat
  total_cost : Rat
  sale_price : Option Rat
  profit_loss : Option Rat
  is_sold : Bool
deriving DecidableEq, Repr

/-- Result row shape `InventoryAging` of the schema. -/
structure InventoryAging where
  vehicle_id : Int
  vin : String
  make : String
  model : String
  year : Int
  status : VehicleStatus
  acquisition_date : Int
  days_in_inventory : Int
  total_cost : Rat
deriving DecidableEq, Repr

/-- Result row shape `ExpenseBreakdown` of the schema. -/
structure ExpenseBreakdown where
  expense_type : ExpenseType
  total_amount : Rat
  count : Nat
deriving DecidableEq, Repr

/-- Result shape `DashboardKpi` of the schema. -/
structure DashboardKpi where
  total_inventory : Nat
  total_inventory_value : Rat
  vehicles_in_reconditioning : Nat
  vehicles_listed : Nat
  vehicles_sold_this_month : Nat
  total_profit_this_month : Rat
  avg_days_to_sale : Option Rat
deriving DecidableEq, Repr

/-- The conjunction of WHERE conditions pushed by `getProfitLossReport`
(reports handler): each condition is pushed only when the corresponding
filter field is truthy — dates and the status enum are truthy iff present,
the `make`/`model` strings additionally must be nonempty. -/
def vehicleMatchesFilters (f : FinancialReportFilters) (v : Vehicle) : Bool :=
  (match f.start_date with
   | some d => decide (d ≤ v.acquisition_date)
   | none => true) &&
  (match f.end_date with
   | some d => decide (v.acquisition_date ≤ d)
   | none => true) &&
  (match f.status with
   | some st => decide (v.status = st)
   | none => true) &&
  (match f.make with
   | some m => if m = "" then true else decide (v.make = m)
   | none => true) &&
  (match f.model with
   | some m => if m = "" then true else decide (v.model = m)
   | none => true)

/-- `COALESCE(SUM(expenses.amount), 0)` for the group of one vehicle id in the
`vehicles LEFT JOIN expenses ON vehicles.id = expenses.vehicle_id` queries. -/
def expensesSumFor (es : List Expense) (vid : Int) : Rat :=
  ((es.filter (fun e => decide (e.vehicle_id = vid))).map (fun e => e.amount)).sum

/-- The per-vehicle result mapping shared verbatim by `getProfitLossReport`
and `getVehicleProfitLoss`: note that `profitLoss` is computed with a JS
truthiness test (`salePrice ? salePrice - totalCost : null`), so a sale price
of exactly 0 yields a null `profit_loss`, while `isSold` uses a strict
`salePrice !== null` comparison. -/
def profitLossFor (es : List Expense) (v : Vehicle) : ProfitLoss :=
  let totalExpenses := expensesSumFor es v.id
  let totalCost := v.acquisition_cost + totalExpenses
  let salePrice := v.sale_price
  let profitLoss :=
    match salePrice with
    | some p => if p = 0 then none else some (p - totalCost)
    | none => none
  { vehicle_id := v.id
    acquisition_cost := v.acquisition_cost
    total_expenses := totalExpenses
    total_cost := totalCost
    sale_price := salePrice
    profit_loss := profitLoss
    is_sold := salePrice.isSome }

/-- `getProfitLossReport` (reports handler): vehicles LEFT JOIN expenses,
grouped by vehicle id, filtered by the conditionally pushed predicates. -/
def getProfitLossReport (s : Store) (f : FinancialReportFilters) : List ProfitLoss :=
  (s.vehicles.filter (vehicleMatchesFilters f)).map (profitLossFor s.expenses)

/-- `getVehicleProfitLoss`: same grouped join restricted to one id; returns
null when the vehicle does not exist. -/
def getVehicleProfitLoss (s : Store) (i : Int) : Option ProfitLoss :=
  ((s.vehicles.filter (fun v => decide (v.id = i))).head?).map (profitLossFor s.expenses)

/-- `EXTRACT(DAY FROM NOW() - acquisition_date)`: PostgreSQL timestamp
subtraction yields an interval whose day component is the whole number of
elapsed days, truncated toward zero; with timestamps in seconds this is
truncating division by 86400. -/
def dayDiff (a b : Int) : Int :=
  Int.tdiv (a - b) 86400

/-- `getInventoryAging` (reports handler): vehicles LEFT JOIN expenses,
`WHERE status = 'listed'`, grouped by vehicle id.  `now` is the injected
wall clock (`NOW()`). -/
def getInventoryAging (s : Store) (now : Int) : List InventoryAging :=
  (s.vehicles.filter (fun v => decide (v.status = VehicleStatus.listed))).map (fun v =>
    { vehicle_id := v.id
      vin := v.vin
      make := v.make
      model := v.model
      year := v.year
      status := v.status
      acquisition_date := v.acquisition_date
      days_in_inventory := dayDiff now v.acquisition_date
      total_cost := v.acquisition_cost + expensesSumFor s.expenses v.id })

/-- SQL aggregate `SUM` over a column: `NULL` (here `none`) when there are no
input rows, the arithmetic sum otherwise. -/
def sqlSum (l : List Rat) : Option Rat :=
  if l.isEmpty then none else some l.sum

/-- The `status != 'sold' AND status != 'archived'` condition of the
dashboard inventory queries. -/
def notSoldOrArchived (v : Vehicle) : Bool :=
  !(v.status = VehicleStatus.sold) && !(v.status = VehicleStatus.archived)

/-- `getDashboardKpis` (dashboard handler).  `now` is the wall clock and
`startOfMonth` the timestamp of `new Date(now.getFullYear(), now.getMonth(), 1)`
(calendar conversion happens in the JS runtime and is injected here).
Faithful points: the sold-this-month queries use only
`sale_date >= startOfMonth` (a SQL comparison, false on NULL) with no upper
bound; `total_profit_this_month` skips rows whose raw `sale_price` string is
falsy (NULL); `avg_days_to_sale` averages over sold vehicles, ignoring NULL
`sale_date` rows as SQL `AVG` does, and is null when no row contributes. -/
def getDashboardKpis (s : Store) (now startOfMonth : Int) : DashboardKpi :=
  let inventory := s.vehicles.filter notSoldOrArchived
  let total_inventory := inventory.length
  let acquisitionValue := (sqlSum (inventory.map (fun v => v.acquisition_cost))).getD 0
  let joinedExpenses := s.expenses.filter (fun e =>
    s.vehicles.any (fun v => decide (v.id = e.vehicle_id) && notSoldOrArchived v))
  let expensesValue := (sqlSum (joinedExpenses.map (fun e => e.amount))).getD 0
  let total_inventory_value := acquisitionValue + expensesValue
  let vehicles_in_reconditioning :=
    (s.vehicles.filter (fun v => decide (v.status = VehicleStatus.reconditioning))).length
  let vehicles_listed :=
    (s.vehicles.filter (fun v => decide (v.status = VehicleStatus.listed))).length
  let soldThisMonth := s.vehicles.filter (fun v =>
    decide (v.status = VehicleStatus.sold) &&
    (match v.sale_date with
     | some d => decide (startOfMonth ≤ d)
     | none => false))
  let vehicles_sold_this_month := soldThisMonth.length
  let total_profit_this_month :=
    (soldThisMonth.map (fun v =>
      match v.sale_price with
      | some p =>
        p - v.acquisition_cost - ((sqlSum (((s.expenses.filter
            (fun e => decide (e.vehicle_id = v.id)))).map (fun e => e.amount))).getD 0)
      | none => 0)).sum
  let soldDays := (s.vehicles.filter (fun v => decide (v.status = VehicleStatus.sold))).filterMap
    (fun v => v.sale_date.map (fun d => dayDiff d v.acquisition_date))
  let avg_days_to_sale :=
    if soldDays.isEmpty then none
    else some ((soldDays.map (fun d => (d : Rat))).sum / (soldDays.length : Rat))
  { total_inventory := total_inventory
    total_inventory_value := total_inventory_value
    vehicles_in_reconditioning := vehicles_in_reconditioning
    vehicles_listed := vehicles_listed
    vehicles_sold_this_month := vehicles_sold_this_month
    total_profit_this_month := total_profit_this_month
    avg_days_to_sale := avg_days_to_sale }

/-- The canonical enum order of `expense_type`, used to present SQL
`GROUP BY expense_type` groups deterministically (SQL leaves group order
unspecified; both grouped queries below share this presentation, so claims
comparing them are unaffected by the choice). -/
def allExpenseTypes : List ExpenseType :=
  [ExpenseType.acquisition, ExpenseType.reconditioning, ExpenseType.marketing,
   ExpenseType.transport, ExpenseType.storage, ExpenseType.inspection,
   ExpenseType.repairs, ExpenseType.detailing, ExpenseType.other]

/-- `SELECT expense_type, SUM(amount), COUNT(id) ... GROUP BY expense_type`
over a list of (already filtered/joined) expense rows: one group per
expense_type having at least one row. -/
def groupByExpenseType (es : List Expense) : List ExpenseBreakdown :=
  allExpenseTypes.filterMap (fun t =>
    let xs := es.filter (fun e => decide (e.expense_type = t))
    if xs.isEmpty then none
    else some { expense_type := t
                total_amount := (xs.map (fun e => e.amount)).sum
                count := xs.length })

/-- The date conditions of `getExpenseBreakdown` (expenses handler): applied
directly to `expense_date`. -/
def expenseDateOk (f : FinancialReportFilters) (e : Expense) : Bool :=
  (match f.start_date with
   | some d => decide (d ≤ e.expense_date)
   | none => true) &&
  (match f.end_date with
   | some d => decide (e.expense_date ≤ d)
   | none => true)

/-- The vehicle-attribute conditions (status/make/model) shared by
`getExpenseBreakdown` and `exportExpenseBreakdownToCSV`, pushed only when the
corresponding field is JS-truthy. -/
def vehicleAttrOk (f : FinancialReportFilters) (v : Vehicle) : Bool :=
  (match f.status with
   | some st => decide (v.status = st)
   | none => true) &&
  (match f.make with
   | some m => if m = "" then true else decide (v.make = m)
   | none => true) &&
  (match f.model with
   | some m => if m = "" then true else decide (v.model = m)
   | none => true)

/-- `getExpenseBreakdown` (expenses handler): joins `expenses` to `vehicles`
only when a vehicle-attribute filter (status/make/model) is truthy; the date
filters always apply to `expense_date`. -/
def getExpenseBreakdown (s : Store) (f : FinancialReportFilters) : List ExpenseBreakdown :=
  let needsJoin := f.status.isSome || strFilterTruthy f.make || strFilterTruthy f.model
  let rows :=
    if needsJoin then
      s.expenses.filter (fun e =>
        expenseDateOk f e &&
        s.vehicles.any (fun v => decide (v.id = e.vehicle_id) && vehicleAttrOk f v))
    else
      s.expenses.filter (expenseDateOk f)
  groupByExpenseType rows

/-- `Number.prototype.toFixed(2)` on the exact decimal amounts handled here:
two-digit fixed-point rendering, rounding half away from zero. -/
def toFixed2 (q : Rat) : String :=
  let n : Int := if 0 ≤ q then Rat.floor (q * 100 + 1 / 2) else -(Rat.floor (-(q * 100) + 1 / 2))
  let sign := if n < 0 then "-" else ""
  let m := n.natAbs
  let r := m % 100
  sign ++ toString (m / 100) ++ "." ++ (if r < 10 then "0" ++ toString r else toString r)

/-- The string rendered for each expense-type enum value. -/
def expenseTypeStr : ExpenseType → String
  | ExpenseType.acquisition => "acquisition"
  | ExpenseType.reconditioning => "reconditioning"
  | ExpenseType.marketing => "marketing"
  | ExpenseType.transport => "transport"
  | ExpenseType.storage => "storage"
  | ExpenseType.inspection => "inspection"
  | ExpenseType.repairs => "repairs"
  | ExpenseType.detailing => "detailing"
  | ExpenseType.other => "other"

/-- One CSV data row of the expense-breakdown export: double-quoted type,
two-decimal total, count, trailing newline. -/
def breakdownCsvRow (b : ExpenseBreakdown) : String :=
  "\"" ++ expenseTypeStr b.expense_type ++ "\"," ++ toFixed2 b.total_amount ++ "," ++
    toString b.count ++ "\n"

/-- The expense-breakdown CSV header line. -/
def breakdownCsvHeader : String :=
  "Expense Type,Total Amount,Count\n"

/-- `exportExpenseBreakdownToCSV` (reports handler): when ANY filter field is
truthy it inner-joins `expenses` to `vehicles` and — unlike
`getExpenseBreakdown` — applies the date filters to the vehicle's
`acquisition_date`; otherwise it groups all expenses.  Rows are appended to
the header in group order. -/
def exportExpenseBreakdownToCSV (s : Store) (f : FinancialReportFilters) : String :=
  let anyFilter := f.start_date.isSome || f.end_date.isSome || f.status.isSome ||
    strFilterTruthy f.make || strFilterTruthy f.model
  let groups :=
    if anyFilter then
      groupByExpenseType (s.expenses.filter (fun e =>
        s.vehicles.any (fun v =>
          decide (v.id = e.vehicle_id) &&
          (match f.start_date with
           | some d => decide (d ≤ v.acquisition_date)
           | none => true) &&
          (match f.end_date with
           | some d => decide (v.acquisition_date ≤ d)
           | none => true) &&
          vehicleAttrOk f v)))
    else
      groupByExpenseType s.expenses
  breakdownCsvHeader ++ String.join (groups.map breakdownCsvRow)

/-- Input shape `CreateTransactionInput` (zod schema): `transaction_date` is
optional (a present `Date` is always truthy). -/
structure CreateTransactionInput where
  vehicle_id : Int
  type : TransactionType
  amount : Rat
  description : String
  transaction_date : Option Int
deriving DecidableEq, Repr

/-- Input shape `CreateExpenseInput`.  `vendor_id` is
`number | null | undefined`: the outer `Option` is `undefined` (field
absent), the inner one is `null`. -/
structure CreateExpenseInput where
  vehicle_id : Int
  vendor_id : Option (Option Int)
  amount : Rat
  expense_type : ExpenseType
  description : String
  expense_date : Option Int
deriving DecidableEq, Repr

/-- Input shape `UpdateExpenseInput`: every field beyond `id` optional;
`vendor_id` is again `number | null | undefined`. -/
structure UpdateExpenseInput where
  id : Int
  vendor_id : Option (Option Int)
  amount : Option Rat
  expense_type : Option ExpenseType
  description : Option String
  expense_date : Option Int
deriving DecidableEq, Repr

/-- JS truthiness of a `number | null | undefined` value: truthy iff a
present, non-null, nonzero number. -/
def numFieldTruthy : Option (Option Int) → Bool
  | some (some k) => !(k = 0)
  | _ => false

/-- `input.vendor_id || null`: the number when truthy, `null` otherwise
(so both `undefined`, `null` and `0` collapse to `null`). -/
def numFieldOrNull : Option (Option Int) → Option Int
  | some (some k) => if k = 0 then none else some k
  | _ => none

/-- `createTransaction` (transactions handler): verifies the vehicle exists,
inserts the transaction (date defaulting to now), and — when the type is
`sale` — updates the vehicle to sold with the transaction's amount and date.
Returns the inserted transaction and the new store. -/
def createTransaction (s : Store) (inp : CreateTransactionInput) (now : Int) :
    Except String (Transaction × Store) :=
  if s.vehicles.any (fun v => decide (v.id = inp.vehicle_id)) then
    let t : Transaction :=
      { id := s.nextTransactionId
        vehicle_id := inp.vehicle_id
        type := inp.type
        amount := inp.amount
        description := inp.description
        transaction_date := inp.transaction_date.getD now
        created_at := now }
    let s1 : Store :=
      { s with
        transactions := s.transactions ++ [t]
        nextTransactionId := s.nextTransactionId + 1 }
    let s2 : Store :=
      if inp.type = TransactionType.sale then
        { s1 with
          vehicles := s1.vehicles.map (fun v =>
            if v.id = inp.vehicle_id then
              { v with
                status := VehicleStatus.sold
                sale_price := some inp.amount
                sale_date := some t.transaction_date
                updated_at := now }
            else v) }
      else s1
    Except.ok (t, s2)
  else
    Except.error ("Vehicle with ID " ++ toString inp.vehicle_id ++ " not found")

/-- `deleteTransaction` (transactions handler): looks the transaction up, and
when it is a `sale` unconditionally reverts the vehicle to listed with null
sale price/date before deleting the transaction row. -/
def deleteTransaction (s : Store) (i : Int) (now : Int) :
    Except String (Bool × Store) :=
  match (s.transactions.filter (fun t => decide (t.id = i))).head? with
  | none => Except.error ("Transaction with ID " ++ toString i ++ " not found")
  | some t =>
    let s1 : Store :=
      if t.type = TransactionType.sale then
        { s with
          vehicles := s.vehicles.map (fun v =>
            if v.id = t.vehicle_id then
              { v with
                status := VehicleStatus.listed
                sale_price := none
                sale_date := none
                updated_at := now }
            else v) }
      else s
    Except.ok (true, { s1 with transactions := s1.transactions.filter (fun t => !(t.id = i)) })

/-- `createExpense` (expenses handler): validates the vehicle, validates the
vendor only when `vendor_id` is truthy (so `0`, `null` and a missing field all
skip validation), and inserts with `vendor_id || null`. -/
def createExpense (s : Store) (inp : CreateExpenseInput) (now : Int) :
    Except String (Expense × Store) :=
  if s.vehicles.any (fun v => decide (v.id = inp.vehicle_id)) then
    if numFieldTruthy inp.vendor_id &&
        !(s.vendors.any (fun w => decide (some w.id = (inp.vendor_id.getD none)))) then
      Except.error "Vendor not found"
    else
      let e : Expense :=
        { id := s.nextExpenseId
          vehicle_id := inp.vehicle_id
          vendor_id := numFieldOrNull inp.vendor_id
          amount := inp.amount
          expense_type := inp.expense_type
          description := inp.description
          expense_date := inp.expense_date.getD now
          created_at := now }
      Except.ok (e, { s with expenses := s.expenses ++ [e], nextExpenseId := s.nextExpenseId + 1 })
  else
    Except.error "Vehicle not found"

/-- `updateExpense` (expenses handler): checks the expense exists, validates
the vendor only when `vendor_id` is truthy, then sets exactly the fields that
are not `undefined` — including setting `vendor_id` to `0` or `null` verbatim
when supplied that way, with no validation. -/
def updateExpense (s : Store) (inp : UpdateExpenseInput) (now : Int) :
    Except String Store :=
  if s.expenses.any (fun e => decide (e.id = inp.id)) then
    if numFieldTruthy inp.vendor_id &&
        !(s.vendors.any (fun w => decide (some w.id = (inp.vendor_id.getD none)))) then
      Except.error "Vendor not found"
    else
      Except.ok { s with
        expenses := s.expenses.map (fun e =>
          if e.id = inp.id then
            { e with
              vendor_id := inp.vendor_id.getD e.vendor_id
              amount := inp.amount.getD e.amount
              expense_type := inp.expense_type.getD e.expense_type
              description := inp.description.getD e.description
              expense_date := inp.expense_date.getD e.expense_date }
          else e) }
  else
    Except.error "Expense not found"

/-- `deleteExpense` (expenses handler): deletes by id and reports
`success := whether any row was deleted` — a missing id is NOT an error. -/
def deleteExpense (s : Store) (i : Int) : Except String (Bool × Store) :=
  Except.ok (s.expenses.any (fun e => decide (e.id = i)),
    { s with expenses := s.expenses.filter (fun e => !(e.id = i)) })

/-- `deleteVehicle` (vehicles handler): errors when the id is missing,
otherwise cascade-deletes the vehicle's expenses and transactions before the
vehicle row. -/
def deleteVehicle (s : Store) (i : Int) : Except String (Bool × Store) :=
  if s.vehicles.any (fun v => decide (v.id = i)) then
    Except.ok (true,
      { s with
        expenses := s.expenses.filter (fun e => !(e.vehicle_id = i))
        transactions := s.transactions.filter (fun t => !(t.vehicle_id = i))
        vehicles := s.vehicles.filter (fun v => !(v.id = i)) })
  else
    Except.error ("Vehicle with id " ++ toString i ++ " not found")

/-- `deleteVendor` (vendors handler): errors when the id is missing; errors
with a conflict message when any expense references the vendor (performing no
write); otherwise deletes the vendor row. -/
def deleteVendor (s : Store) (i : Int) : Except String (Bool × Store) :=
  if s.vendors.any (fun w => decide (w.id = i)) then
    if (s.expenses.filter (fun e => decide (e.vendor_id = some i))).length > 0 then
      Except.error ("Cannot delete vendor with id " ++ toString i ++
        " because it has associated expenses")
    else
      Except.ok (true, { s with vendors := s.vendors.filter (fun w => !(w.id = i)) })
  else
    Except.error ("Vendor with id " ++ toString i ++ " not found")

/-- `getVehicleById`: null rather than an error on a missing id. -/
def getVehicleById (s : Store) (i : Int) : Option Vehicle :=
  (s.vehicles.filter (fun v => decide (v.id = i))).head?

/-- `getVendorById`: null rather than an error on a missing id. -/
def getVendorById (s : Store) (i : Int) : Option Vendor :=
  (s.vendors.filter (fun w => decide (w.id = i))).head?

/-- `getExpenseById`: null rather than an error on a missing id. -/
def getExpenseById (s : Store) (i : Int) : Option Expense :=
  (s.expenses.filter (fun e => decide (e.id = i))).head?

/-- `getTransactionById`: null rather than an error on a missing id. -/
def getTransactionById (s : Store) (i : Int) : Option Transaction :=
  (s.transactions.filter (fun t => decide (t.id = i))).head?

/-- Written from the spec's wording (§4.1, as amended): one ProfitLoss record
for a vehicle, with total_expenses the sum of the amounts of the expense rows
whose vehicle_id matches, total_cost = acquisition_cost + total_expenses,
sale_price copied, profit_loss = sale_price − total_cost when sale_price is
present and nonzero (null when absent or zero), and is_sold true exactly when
sale_price is not null. -/
def profitLossRecordSpec (es : List Expense) (v : Vehicle) : ProfitLoss :=
  let totalExpenses := ((es.map (fun e => if e.vehicle_id = v.id then e.amount else 0)).sum)
  let totalCost := v.acquisition_cost + totalExpenses
  { vehicle_id := v.id
    acquisition_cost := v.acquisition_cost
    total_expenses := totalExpenses
    total_cost := totalCost
    sale_price := v.sale_price
    profit_loss :=
      match v.sale_price with
      | some p => if p = 0 then none else some (p - totalCost)
      | none => none
    is_sold := decide (v.sale_price ≠ none) }

/-- A vehicle row with representative constants in the fields no claim
touches. -/
def mkVehicle (i : Int) (st : VehicleStatus) (acqDate : Int) (acqCost : Rat)
    (sp : Option Rat) (sd : Option Int) : Vehicle :=
  { id := i
    vin := "1G1AF1F57A7192174"
    make := "Chevrolet"
    model := "Aveo"
    year := 2010
    color := "red"
    mileage := 120000
    status := st
    acquisition_date := acqDate
    acquisition_cost := acqCost
    listing_price := none
    sale_price := sp
    sale_date := sd
    notes := none
    created_at := 0
    updated_at := 0 }

/-- An expense row with representative constants in untouched fields. -/
def mkExpense (i vid : Int) (ven : Option Int) (amt : Rat) (t : ExpenseType)
    (d : Int) : Expense :=
  { id := i
    vehicle_id := vid
    vendor_id := ven
    amount := amt
    expense_type := t
    description := "work"
    expense_date := d
    created_at := 0 }

/-- The store with empty tables. -/
def emptyStore : Store :=
  { vehicles := []
    vendors := []
    expenses := []
    transactions := []
    nextExpenseId := 1
    nextTransactionId := 1 }

/-- C1 counterexample fixture: a single vehicle with a recorded sale price of
exactly 0. -/
def zeroSaleStore : Store :=
  { emptyStore with vehicles := [mkVehicle 1 VehicleStatus.sold 0 100 (some 0) (some 0)] }

/-- C2/C10 fixture: one listed vehicle ready to be sold. -/
def oneVehicleStore : Store :=
  { emptyStore with vehicles := [mkVehicle 1 VehicleStatus.listed 0 15000 none none] }

/-- C3 fixture: one vehicle acquired at time 0 with one repairs expense dated
at time 10. -/
def c3Store : Store :=
  { emptyStore with
    vehicles := [mkVehicle 1 VehicleStatus.listed 0 15000 none none]
    expenses := [mkExpense 1 1 none 5 ExpenseType.repairs 10] }

/-- C3 counterexample filter: only `start_date` supplied. -/
def c3Filters : FinancialReportFilters :=
  { noFilters with start_date := some 5 }

/-- C3 witness filter: a `make` filter and no date filters. -/
def c3MakeFilters : FinancialReportFilters :=
  { noFilters with make := some "Chevrolet" }

/-- C5 counterexample fixture: a sold vehicle whose sale_date (150) is
strictly after the injected clock (100). -/
def c5Store : Store :=
  { emptyStore with vehicles := [mkVehicle 1 VehicleStatus.sold 0 100 (some 200) (some 150)] }

/-- C6 witness fixture: one listed vehicle with one expense, one vehicle of
every other status alongside. -/
def c6Store : Store :=
  { emptyStore with
    vehicles := [mkVehicle 1 VehicleStatus.listed 0 15000 none none,
                 mkVehicle 2 VehicleStatus.sold 0 1 (some 2) (some 3),
                 mkVehicle 3 VehicleStatus.acquired 0 1 none none,
                 mkVehicle 4 VehicleStatus.reconditioning 0 1 none none,
                 mkVehicle 5 VehicleStatus.archived 0 1 none none]
    expenses := [mkExpense 1 1 none 2500 ExpenseType.repairs 10] }

/-- C8 witness fixture: one vendor referenced by one expense of a vehicle. -/
def c8Store : Store :=
  { emptyStore with
    vehicles := [mkVehicle 1 VehicleStatus.listed 0 15000 none none]
    vendors := [{ id := 7, name := "Acme Parts", contact_info := none, created_at := 0 }]
    expenses := [mkExpense 1 1 (some 7) 250 ExpenseType.repairs 10]
    nextExpenseId := 2 }

/-- C9 fixture: one vehicle, no vendors. -/
def c9Store : Store :=
  { emptyStore with vehicles := [mkVehicle 1 VehicleStatus.listed 0 15000 none none] }

/-- C9 counterexample input: well-formed expense input naming `vendor_id = 0`,
an id that exists in no vendors table. -/
def c9Input : CreateExpenseInput :=
  { vehicle_id := 1
    vendor_id := some (some 0)
    amount := 100
    expense_type := ExpenseType.repairs
    description := "oil change"
    expense_date := some 20 }

/-- C2 witness input: a sale of 28000 on vehicle 1. -/
def c2Input : CreateTransactionInput :=
  { vehicle_id := 1
    type := TransactionType.sale
    amount := 28000
    description := "sold to customer"
    transaction_date := some 40 }

/-- C10 witness fixture: vehicle 1 was manually reset to `acquired` while two
sale transactions (ids 5 and 6) for it remain on file. -/
def c10Store : Store :=
  { emptyStore with
    vehicles := [mkVehicle 1 VehicleStatus.acquired 0 15000 (some 28000) (some 40)]
    transactions :=
      [{ id := 5, vehicle_id := 1, type := TransactionType.sale, amount := 28000,
         description := "first sale", transaction_date := 40, created_at := 0 },
       { id := 6, vehicle_id := 1, type := TransactionType.sale, amount := 29000,
         description := "second sale", transaction_date := 50, created_at := 0 }]
    nextTransactionId := 7 }

theorem sum_filter_eq_sum_ite (es : List Expense) (vid : Int) :
    ((es.filter (fun e => decide (e.vehicle_id = vid))).map (fun e => e.amount)).sum
      = (es.map (fun e => if e.vehicle_id = vid then e.amount else 0)).sum := by
  induction es with
  | nil => rfl
  | cons e es ih =>
    by_cases h : e.vehicle_id = vid <;>
      simp [List.filter_cons, h, ih]

theorem profitLossFor_eq_spec (es : List Expense) (v : Vehicle) :
    profitLossFor es v = profitLossRecordSpec es v := by
  unfold profitLossFor profitLossRecordSpec expensesSumFor
  rw [sum_filter_eq_sum_ite]
  cases hsp : v.sale_price <;> simp [hsp]

/-- C1 counterexample: on a store holding one vehicle with acquisition cost
100, no expenses and a recorded sale_price of exactly 0, the report marks the
vehicle as sold (is_sold = true) yet returns a null profit_loss, where the
claim demands profit_loss = 0 − 100. -/
theorem getProfitLossReport_zero_sale_price :
    getProfitLossReport zeroSaleStore noFilters =
      [{ vehicle_id := 1, acquisition_cost := 100, total_expenses := 0, total_cost := 100,
         sale_price := some 0, profit_loss := none, is_sold := true }] := by
  norm_num [getProfitLossReport, zeroSaleStore, emptyStore, noFilters, mkVehicle,
    vehicleMatchesFilters, profitLossFor, expensesSumFor]

/-- C1 (amended): for every store state and filter set, getProfitLossReport
returns exactly one ProfitLoss record per vehicle matching the conjunction of
the supplied (truthy) filters, and each record has total_expenses the sum of
the matching expense amounts, total_cost = acquisition_cost + total_expenses,
sale_price the vehicle's sale_price, profit_loss = sale_price − total_cost
when sale_price is present AND NONZERO (null when absent or zero), and
is_sold true exactly when sale_price is not null, independent of status. -/
theorem getProfitLossReport_correct (s : Store) (f : FinancialReportFilters) :
    getProfitLossReport s f =
      (s.vehicles.filter (vehicleMatchesFilters f)).map (profitLossRecordSpec s.expenses) := by
  unfold getProfitLossReport
  exact List.map_congr_left (fun v _ => profitLossFor_eq_spec s.expenses v)

/-- C2: creating a "sale" transaction on an existing vehicle inserts the
transaction and marks every vehicle row with that id sold with sale_price the
transaction amount and sale_date the transaction's date; deleting that
transaction afterwards removes it and reverts the vehicle to listed with null
sale_price and sale_date.  `hfresh` states that the SERIAL id generator is
ahead of the stored transaction ids. -/
theorem sale_transaction_roundtrip (s : Store) (inp : CreateTransactionInput)
    (now now2 : Int)
    (hex : ∃ v ∈ s.vehicles, v.id = inp.vehicle_id)
    (htype : inp.type = TransactionType.sale)
    (hfresh : ∀ tr ∈ s.transactions, tr.id ≠ s.nextTransactionId) :
    ∃ t s1 s2,
      createTransaction s inp now = Except.ok (t, s1) ∧
      t ∈ s1.transactions ∧ t.type = TransactionType.sale ∧ t.amount = inp.amount ∧
      t.transaction_date = inp.transaction_date.getD now ∧
      (∀ v ∈ s1.vehicles, v.id = inp.vehicle_id →
        v.status = VehicleStatus.sold ∧ v.sale_price = some inp.amount ∧
        v.sale_date = some t.transaction_date) ∧
      deleteTransaction s1 t.id now2 = Except.ok (true, s2) ∧
      (∀ tr ∈ s2.transactions, tr.id ≠ t.id) ∧
      (∀ v ∈ s2.vehicles, v.id = inp.vehicle_id →
        v.status = VehicleStatus.listed ∧ v.sale_price = none ∧ v.sale_date = none) := by
  obtain ⟨v0, hv0, hid0⟩ := hex
  have hexB : s.vehicles.any (fun v => decide (v.id = inp.vehicle_id)) = true :=
    List.any_eq_true.mpr ⟨v0, hv0, by simp [hid0]⟩
  set t : Transaction :=
    { id := s.nextTransactionId
      vehicle_id := inp.vehicle_id
      type := inp.type
      amount := inp.amount
      description := inp.description
      transaction_date := inp.transaction_date.getD now
      created_at := now } with ht
  set gsold : Vehicle → Vehicle := fun v =>
    if v.id = inp.vehicle_id then
      { v with
        status := VehicleStatus.sold
        sale_price := some inp.amount
        sale_date := some t.transaction_date
        updated_at := now }
    else v with hg
  set s1 : Store :=
    { s with
      vehicles := s.vehicles.map gsold
      transactions := s.transactions ++ [t]
      nextTransactionId := s.nextTransactionId + 1 } with hs1
  have hcreate : createTransaction s inp now = Except.ok (t, s1) := by
    simp only [createTransaction, hexB, if_true, htype, ht, hs1, hg]
  have hfind :
      (s1.transactions.filter (fun tr => decide (tr.id = t.id))).head? = some t := by
    have hnil : s.transactions.filter (fun tr => decide (tr.id = t.id)) = [] := by
      refine List.filter_eq_nil_iff.mpr (fun tr htr => ?_)
      simpa using hfresh tr htr
    simp [hs1, List.filter_append, hnil]
  set grevert : Vehicle → Vehicle := fun v =>
    if v.id = t.vehicle_id then
      { v with
        status := VehicleStatus.listed
        sale_price := none
        sale_date := none
        updated_at := now2 }
    else v with hr
  set s2 : Store :=
    { s1 with
      vehicles := s1.vehicles.map grevert
      transactions :=
        (s1.transactions.filter (fun tr => !(tr.id = t.id))) } with hs2
  have httype : t.type = TransactionType.sale := by rw [ht]; exact htype
  have hdelete : deleteTransaction s1 t.id now2 = Except.ok (true, s2) := by
    simp only [deleteTransaction, hfind, httype, if_true]
    simp [htype, hs2, hr, hs1, ht]
  refine ⟨t, s1, s2, hcreate, ?_, by simp [ht, htype], by simp [ht], by simp [ht], ?_, hdelete, ?_, ?_⟩
  · simp [hs1]
  · intro v hv hid
    simp only [hs1, List.mem_map] at hv
    obtain ⟨w, hw, rfl⟩ := hv
    by_cases h : w.id = inp.vehicle_id
    · simp [hg, h]
    · simp [hg, h] at hid
  · intro tr htr
    simp only [hs2, List.mem_filter] at htr
    simpa using htr.2
  · intro v hv hid
    simp only [hs2, hs1, List.mem_map] at hv
    obtain ⟨w, hw, rfl⟩ := hv
    by_cases h : w.id = inp.vehicle_id
    · simp [hr, hg, ht, h]
    · simp [hr, hg, ht, h] at hid

/-- C2 witness: the round trip evaluated on a concrete store with one listed
vehicle and a 28000 sale. -/
theorem sale_transaction_roundtrip_witness :
    ∃ t s1 s2,
      createTransaction oneVehicleStore c2Input 30 = Except.ok (t, s1) ∧
      t ∈ s1.transactions ∧ t.type = TransactionType.sale ∧ t.amount = c2Input.amount ∧
      t.transaction_date = c2Input.transaction_date.getD 30 ∧
      (∀ v ∈ s1.vehicles, v.id = c2Input.vehicle_id →
        v.status = VehicleStatus.sold ∧ v.sale_price = some c2Input.amount ∧
        v.sale_date = some t.transaction_date) ∧
      deleteTransaction s1 t.id 60 = Except.ok (true, s2) ∧
      (∀ tr ∈ s2.transactions, tr.id ≠ t.id) ∧
      (∀ v ∈ s2.vehicles, v.id = c2Input.vehicle_id →
        v.status = VehicleStatus.listed ∧ v.sale_price = none ∧ v.sale_date = none) :=
  sale_transaction_roundtrip oneVehicleStore c2Input 30 60
    ⟨mkVehicle 1 VehicleStatus.listed 0 15000 none none,
      by simp [oneVehicleStore, emptyStore], by simp [mkVehicle, c2Input]⟩
    rfl
    (by simp [oneVehicleStore, emptyStore])

/-- C10: whenever the first transaction stored under id `i` has type "sale",
deleteTransaction succeeds with success = true, sets every vehicle row with
that transaction's vehicle_id to listed with null sale_price/sale_date —
with no hypothesis on the vehicle's current status and none forbidding other
"sale" transactions for the same vehicle — and removes exactly the
transactions with id `i`. -/
theorem deleteTransaction_sale_unconditional (s : Store) (i now : Int) (t : Transaction)
    (hfind : (s.transactions.filter (fun tr => decide (tr.id = i))).head? = some t)
    (hsale : t.type = TransactionType.sale) :
    ∃ s2, deleteTransaction s i now = Except.ok (true, s2) ∧
      (∀ v ∈ s2.vehicles, v.id = t.vehicle_id →
        v.status = VehicleStatus.listed ∧ v.sale_price = none ∧ v.sale_date = none) ∧
      s2.transactions = s.transactions.filter (fun tr => !(tr.id = i)) := by
  set grevert : Vehicle → Vehicle := fun v =>
    if v.id = t.vehicle_id then
      { v with
        status := VehicleStatus.listed
        sale_price := none
        sale_date := none
        updated_at := now }
    else v with hr
  refine ⟨{ s with
            vehicles := s.vehicles.map grevert
            transactions := s.transactions.filter (fun tr => !(tr.id = i)) }, ?_, ?_, rfl⟩
  · simp only [deleteTransaction, hfind, hsale, if_true]
  · intro v hv hid
    simp only [List.mem_map] at hv
    obtain ⟨w, hw, rfl⟩ := hv
    by_cases h : w.id = t.vehicle_id
    · simp [hr, h]
    · simp [hr, h] at hid

/-- C10 witness: on a store where vehicle 1 was manually reset to `acquired`
and two sale transactions (ids 5, 6) exist, deleting transaction 5 still
reverts the vehicle and leaves transaction 6 behind. -/
theorem deleteTransaction_sale_unconditional_witness :
    ∃ s2, deleteTransaction c10Store 5 90 = Except.ok (true, s2) ∧
      (∀ v ∈ s2.vehicles,
        v.id = ({ id := 5, vehicle_id := 1, type := TransactionType.sale, amount := 28000,
                  description := "first sale", transaction_date := 40,
                  created_at := 0 } : Transaction).vehicle_id →
        v.status = VehicleStatus.listed ∧ v.sale_price = none ∧ v.sale_date = none) ∧
      s2.transactions = c10Store.transactions.filter (fun tr => !(tr.id = 5)) :=
  deleteTransaction_sale_unconditional c10Store 5 90
    { id := 5, vehicle_id := 1, type := TransactionType.sale, amount := 28000,
      description := "first sale", transaction_date := 40, created_at := 0 }
    (by simp [c10Store, emptyStore]) rfl

/-- C4 counterexample: deleteExpense on an id that exists in no expenses
table does not fail with a NotFound-style error as the claim demands — it
returns a success-flagged result with success = false and leaves the store
unchanged. -/
theorem deleteExpense_missing_id_no_error :
    deleteExpense emptyStore 1 = Except.ok (false, emptyStore) := by
  simp [deleteExpense, emptyStore]

/-- C4 (amended): for an id absent from the corresponding table,
deleteVehicle, deleteVendor and deleteTransaction fail with descriptive
NotFound-style errors, while deleteExpense silently returns success = false
with the store unchanged; the pure lookups (getVehicleById, getVendorById,
getExpenseById, getTransactionById, getVehicleProfitLoss) return null. -/
theorem delete_missing_id_behaviour (s : Store) (i now : Int)
    (hv : ∀ v ∈ s.vehicles, v.id ≠ i)
    (hw : ∀ w ∈ s.vendors, w.id ≠ i)
    (he : ∀ e ∈ s.expenses, e.id ≠ i)
    (htr : ∀ t ∈ s.transactions, t.id ≠ i) :
    deleteVehicle s i = Except.error ("Vehicle with id " ++ toString i ++ " not found") ∧
    deleteVendor s i = Except.error ("Vendor with id " ++ toString i ++ " not found") ∧
    deleteTransaction s i now =
      Except.error ("Transaction with ID " ++ toString i ++ " not found") ∧
    deleteExpense s i = Except.ok (false, s) ∧
    getVehicleById s i = none ∧ getVendorById s i = none ∧
    getExpenseById s i = none ∧ getTransactionById s i = none ∧
    getVehicleProfitLoss s i = none := by
  have hvB : (s.vehicles.any (fun v => decide (v.id = i))) = false := by
    simp only [List.any_eq_false, decide_eq_true_eq]
    exact hv
  have hwB : (s.vendors.any (fun w => decide (w.id = i))) = false := by
    simp only [List.any_eq_false, decide_eq_true_eq]
    exact hw
  have heB : (s.expenses.any (fun e => decide (e.id = i))) = false := by
    simp only [List.any_eq_false, decide_eq_true_eq]
    exact he
  have htnil : s.transactions.filter (fun t => decide (t.id = i)) = [] := by
    refine List.filter_eq_nil_iff.mpr (fun t hm => ?_)
    simpa using htr t hm
  have hvnil : s.vehicles.filter (fun v => decide (v.id = i)) = [] := by
    refine List.filter_eq_nil_iff.mpr (fun v hm => ?_)
    simpa using hv v hm
  have hwnil : s.vendors.filter (fun w => decide (w.id = i)) = [] := by
    refine List.filter_eq_nil_iff.mpr (fun w hm => ?_)
    simpa using hw w hm
  have henil : s.expenses.filter (fun e => decide (e.id = i)) = [] := by
    refine List.filter_eq_nil_iff.mpr (fun e hm => ?_)
    simpa using he e hm
  have heself : s.expenses.filter (fun e => !(e.id = i)) = s.expenses := by
    refine List.filter_eq_self.mpr (fun e hm => ?_)
    simpa using he e hm
  exact ⟨by simp [deleteVehicle, hvB], by simp [deleteVendor, hwB],
    by simp [deleteTransaction, htnil], by simp [deleteExpense, heB, heself],
    by simp [getVehicleById, hvnil], by simp [getVendorById, hwnil],
    by simp [getExpenseById, henil], by simp [getTransactionById, htnil],
    by simp [getVehicleProfitLoss, hvnil]⟩

/-- C4 witness: the delete/lookup behaviour evaluated on the empty store at
id 42. -/
theorem delete_missing_id_behaviour_witness :
    deleteVehicle emptyStore 42 =
      Except.error ("Vehicle with id " ++ toString (42 : Int) ++ " not found") ∧
    deleteVendor emptyStore 42 =
      Except.error ("Vendor with id " ++ toString (42 : Int) ++ " not found") ∧
    deleteTransaction emptyStore 42 0 =
      Except.error ("Transaction with ID " ++ toString (42 : Int) ++ " not found") ∧
    deleteExpense emptyStore 42 = Except.ok (false, emptyStore) ∧
    getVehicleById emptyStore 42 = none ∧ getVendorById emptyStore 42 = none ∧
    getExpenseById emptyStore 42 = none ∧ getTransactionById emptyStore 42 = none ∧
    getVehicleProfitLoss emptyStore 42 = none :=
  delete_missing_id_behaviour emptyStore 42 0
    (by simp [emptyStore]) (by simp [emptyStore]) (by simp [emptyStore])
    (by simp [emptyStore])

/-- C8: deleting a vendor referenced by at least one expense fails with the
Conflict-style error message; the handler performs no write before the check,
so the error result leaves the caller's store — vendor row and referencing
expenses included — untouched. -/
theorem deleteVendor_conflict (s : Store) (i : Int)
    (hv : ∃ w ∈ s.vendors, w.id = i)
    (he : ∃ e ∈ s.expenses, e.vendor_id = some i) :
    deleteVendor s i =
      Except.error ("Cannot delete vendor with id " ++ toString i ++
        " because it has associated expenses") := by
  obtain ⟨w0, hw0, hwid⟩ := hv
  obtain ⟨e0, he0, heid⟩ := he
  have hvB : (s.vendors.any (fun w => decide (w.id = i))) = true :=
    List.any_eq_true.mpr ⟨w0, hw0, by simp [hwid]⟩
  have hlen : 0 < (s.expenses.filter (fun e => decide (e.vendor_id = some i))).length := by
    refine List.length_pos.mpr (fun hnil => ?_)
    have hmem := List.filter_eq_nil_iff.mp hnil e0 he0
    simp [heid] at hmem
  simp [deleteVendor, hvB, hlen]

/-- C8 witness: vendor 7 of the concrete store is referenced by expense 1, so
deleting it fails with the conflict error. -/
theorem deleteVendor_conflict_witness :
    deleteVendor c8Store 7 =
      Except.error ("Cannot delete vendor with id " ++ toString (7 : Int) ++
        " because it has associated expenses") :=
  deleteVendor_conflict c8Store 7
    (⟨{ id := 7, name := "Acme Parts", contact_info := none, created_at := 0 },
      by simp [c8Store, emptyStore], rfl⟩)
    (⟨mkExpense 1 1 (some 7) 250 ExpenseType.repairs 10,
      by simp [c8Store, emptyStore], by simp [mkExpense]⟩)

/-- C9 counterexample: createExpense with the supplied (and nonexistent)
`vendor_id = 0` does not fail — the JS truthiness check skips validation —
and it DOES insert an expense row (with vendor_id collapsed to null),
contradicting the claim that nothing is persisted. -/
theorem createExpense_vendor_zero_inserts :
    (createExpense c9Store c9Input 25).toOption.map
      (fun p => (p.1.vendor_id, p.2.expenses.length)) = some (none, 1) := by
  simp [createExpense, c9Store, c9Input, emptyStore, numFieldTruthy, numFieldOrNull,
    mkVehicle, Except.toOption]

/-- C9 (amended): createExpense and createTransaction fail with NotFound and
persist nothing when vehicle_id does not exist; createExpense/updateExpense
fail with NotFound and persist nothing when a supplied NONZERO, non-null
vendor_id does not exist; but a supplied `vendor_id = 0` is falsy in JS, so
createExpense skips vendor validation and inserts the expense with a null
vendor_id. -/
theorem create_update_reference_validation (s : Store) (now : Int)
    (ce : CreateExpenseInput) (ue : UpdateExpenseInput) (ct : CreateTransactionInput) :
    ((∀ v ∈ s.vehicles, v.id ≠ ce.vehicle_id) →
      createExpense s ce now = Except.error "Vehicle not found") ∧
    ((∃ v ∈ s.vehicles, v.id = ce.vehicle_id) → ∀ k : Int,
      ce.vendor_id = some (some k) → k ≠ 0 → (∀ w ∈ s.vendors, w.id ≠ k) →
      createExpense s ce now = Except.error "Vendor not found") ∧
    ((∃ v ∈ s.vehicles, v.id = ce.vehicle_id) → ce.vendor_id = some (some 0) →
      ∃ e s2, createExpense s ce now = Except.ok (e, s2) ∧ e.vendor_id = none ∧
        e ∈ s2.expenses) ∧
    ((∀ v ∈ s.vehicles, v.id ≠ ct.vehicle_id) →
      createTransaction s ct now =
        Except.error ("Vehicle with ID " ++ toString ct.vehicle_id ++ " not found")) ∧
    ((∃ e ∈ s.expenses, e.id = ue.id) → ∀ k : Int,
      ue.vendor_id = some (some k) → k ≠ 0 → (∀ w ∈ s.vendors, w.id ≠ k) →
      updateExpense s ue now = Except.error "Vendor not found") := by
  refine ⟨?_, ?_, ?_, ?_, ?_⟩
  · intro hv
    have hvB : (s.vehicles.any (fun v => decide (v.id = ce.vehicle_id))) = false := by
      simp only [List.any_eq_false, decide_eq_true_eq]
      exact hv
    simp [createExpense, hvB]
  · intro hv k hk hk0 hw
    obtain ⟨v0, hv0, hvid⟩ := hv
    have hvB : (s.vehicles.any (fun v => decide (v.id = ce.vehicle_id))) = true :=
      List.any_eq_true.mpr ⟨v0, hv0, by simp [hvid]⟩
    have hwB : (s.vendors.any (fun w => decide (some w.id = ce.vendor_id.getD none))) = false := by
      simp only [List.any_eq_false, hk, Option.getD_some, decide_eq_true_eq,
        Option.some.injEq]
      exact hw
    simp only [createExpense, hvB, if_true, numFieldTruthy, hk, hk0]
    simp [hwB, hk]
    exact hw
  · intro hv h0
    obtain ⟨v0, hv0, hvid⟩ := hv
    have hvB : (s.vehicles.any (fun v => decide (v.id = ce.vehicle_id))) = true :=
      List.any_eq_true.mpr ⟨v0, hv0, by simp [hvid]⟩
    have hfalse : numFieldTruthy ce.vendor_id = false := by
      simp [numFieldTruthy, h0]
    refine ⟨{ id := s.nextExpenseId, vehicle_id := ce.vehicle_id,
              vendor_id := numFieldOrNull ce.vendor_id, amount := ce.amount,
              expense_type := ce.expense_type, description := ce.description,
              expense_date := ce.expense_date.getD now, created_at := now },
            { s with
              expenses := s.expenses ++
                [{ id := s.nextExpenseId, vehicle_id := ce.vehicle_id,
                   vendor_id := numFieldOrNull ce.vendor_id, amount := ce.amount,
                   expense_type := ce.expense_type, description := ce.description,
                   expense_date := ce.expense_date.getD now, created_at := now }],
              nextExpenseId := s.nextExpenseId + 1 }, ?_, ?_, ?_⟩
    · simp [createExpense, hvB, hfalse]
    · simp [numFieldOrNull, h0]
    · simp
  · intro hv
    have hvB : (s.vehicles.any (fun v => decide (v.id = ct.vehicle_id))) = false := by
      simp only [List.any_eq_false, decide_eq_true_eq]
      exact hv
    simp [createTransaction, hvB]
  · intro h250 k hk hk0 hw
    obtain ⟨e0, he0, heid⟩ := h250
    have heB : (s.expenses.any (fun e => decide (e.id = ue.id))) = true :=
      List.any_eq_true.mpr ⟨e0, he0, by simp [heid]⟩
    have hwB : (s.vendors.any (fun w => decide (some w.id = ue.vendor_id.getD none))) = false := by
      simp only [List.any_eq_false, hk, Option.getD_some, decide_eq_true_eq,
        Option.some.injEq]
      exact hw
    simp only [updateExpense, heB, if_true, numFieldTruthy, hk, hk0]
    simp [hwB, hk]
    exact hw

/-- C9 witness: each validation branch evaluated at concrete inputs — missing
vehicle 99, nonexistent nonzero vendor 5, and the falsy `vendor_id = 0`
insertion. -/
theorem create_update_reference_validation_witness :
    createExpense c9Store
      { vehicle_id := 99, vendor_id := none, amount := 10,
        expense_type := ExpenseType.other, description := "detail", expense_date := none } 0 =
      Except.error "Vehicle not found" ∧
    createExpense c9Store
      { vehicle_id := 1, vendor_id := some (some 5), amount := 10,
        expense_type := ExpenseType.other, description := "detail", expense_date := none } 0 =
      Except.error "Vendor not found" ∧
    (∃ e s2, createExpense c9Store c9Input 25 = Except.ok (e, s2) ∧ e.vendor_id = none ∧
      e ∈ s2.expenses) ∧
    createTransaction c9Store
      { vehicle_id := 99, type := TransactionType.expense, amount := 1,
        description := "detail", transaction_date := none } 0 =
      Except.error ("Vehicle with ID " ++ toString (99 : Int) ++ " not found") ∧
    updateExpense c8Store
      { id := 1, vendor_id := some (some 5), amount := none, expense_type := none,
        description := none, expense_date := none } 0 =
      Except.error "Vendor not found" := by
  have hv1 : ∃ v ∈ c9Store.vehicles, v.id = (1 : Int) :=
    ⟨mkVehicle 1 VehicleStatus.listed 0 15000 none none,
      by simp [c9Store, emptyStore], by simp [mkVehicle]⟩
  refine ⟨?_, ?_, ?_, ?_, ?_⟩
  · exact (create_update_reference_validation c9Store 0
      { vehicle_id := 99, vendor_id := none, amount := 10,
        expense_type := ExpenseType.other, description := "detail", expense_date := none }
      { id := 1, vendor_id := none, amount := none, expense_type := none,
        description := none, expense_date := none }
      { vehicle_id := 99, type := TransactionType.expense, amount := 1,
        description := "detail", transaction_date := none }).1
      (by norm_num [c9Store, emptyStore, mkVehicle])
  · exact (create_update_reference_validation c9Store 0
      { vehicle_id := 1, vendor_id := some (some 5), amount := 10,
        expense_type := ExpenseType.other, description := "detail", expense_date := none }
      { id := 1, vendor_id := none, amount := none, expense_type := none,
        description := none, expense_date := none }
      { vehicle_id := 99, type := TransactionType.expense, amount := 1,
        description := "detail", transaction_date := none }).2.1
      hv1 5 rfl (by norm_num) (by simp [c9Store, emptyStore])
  · exact (create_update_reference_validation c9Store 25 c9Input
      { id := 1, vendor_id := none, amount := none, expense_type := none,
        description := none, expense_date := none }
      { vehicle_id := 99, type := TransactionType.expense, amount := 1,
        description := "detail", transaction_date := none }).2.2.1 hv1 rfl
  · exact (create_update_reference_validation c9Store 0
      { vehicle_id := 99, vendor_id := none, amount := 10,
        expense_type := ExpenseType.other, description := "detail", expense_date := none }
      { id := 1, vendor_id := none, amount := none, expense_type := none,
        description := none, expense_date := none }
      { vehicle_id := 99, type := TransactionType.expense, amount := 1,
        description := "detail", transaction_date := none }).2.2.2.1
      (by norm_num [c9Store, emptyStore, mkVehicle])
  · exact (create_update_reference_validation c8Store 0
      { vehicle_id := 99, vendor_id := none, amount := 10,
        expense_type := ExpenseType.other, description := "detail", expense_date := none }
      { id := 1, vendor_id := some (some 5), amount := none, expense_type := none,
        description := none, expense_date := none }
      { vehicle_id := 99, type := TransactionType.expense, amount := 1,
        description := "detail", transaction_date := none }).2.2.2.2
      ⟨mkExpense 1 1 (some 7) 250 ExpenseType.repairs 10,
        by simp [c8Store, emptyStore], by simp [mkExpense]⟩
      5 rfl (by norm_num) (by norm_num [c8Store, emptyStore])

/-- C5 counterexample: with the clock injected at 100 and the start of the
month at 50, a sold vehicle whose sale_date is 150 — strictly after "now" —
is still counted by vehicles_sold_this_month, where the claim demands it not
be. -/
theorem vehicles_sold_this_month_future_date :
    (100 : Int) < 150 ∧ (getDashboardKpis c5Store 100 50).vehicles_sold_this_month = 1 := by
  constructor
  · norm_num
  · norm_num [getDashboardKpis, c5Store, emptyStore, mkVehicle, sqlSum,
      notSoldOrArchived, dayDiff]

/-- C5 (amended): vehicles_sold_this_month equals the count of vehicles whose
status is "sold" and whose (non-null) sale_date is on or after the first day
of the current calendar month, with NO upper bound at "now" — a sold vehicle
whose sale_date is strictly after "now" is also counted. -/
theorem vehicles_sold_this_month_correct (s : Store) (now startOfMonth : Int) :
    (getDashboardKpis s now startOfMonth).vehicles_sold_this_month =
      (s.vehicles.filter (fun v =>
        decide (v.status = VehicleStatus.sold) &&
        v.sale_date.elim false (fun d => decide (startOfMonth ≤ d)))).length := by
  simp only [getDashboardKpis]
  congr 1
  refine List.filter_congr (fun v hv => ?_)
  cases hd : v.sale_date <;> simp [hd]

/-- C6: every record of getInventoryAging comes from a vehicle whose status
is exactly "listed", and carries days_in_inventory equal to the truncated
whole number of days between "now" and the acquisition date and total_cost
equal to acquisition_cost plus the sum of the vehicle's expense amounts. -/
theorem getInventoryAging_correct (s : Store) (now : Int) (r : InventoryAging)
    (hr : r ∈ getInventoryAging s now) :
    ∃ v ∈ s.vehicles, v.status = VehicleStatus.listed ∧
      r.status = VehicleStatus.listed ∧ r.vehicle_id = v.id ∧
      r.days_in_inventory = dayDiff now v.acquisition_date ∧
      r.total_cost = v.acquisition_cost +
        ((s.expenses.filter (fun e => decide (e.vehicle_id = v.id))).map
          (fun e => e.amount)).sum := by
  simp only [getInventoryAging, List.mem_map] at hr
  obtain ⟨v, hvmem, rfl⟩ := hr
  have hmem := List.mem_filter.mp hvmem
  have hst : v.status = VehicleStatus.listed := by simpa using hmem.2
  exact ⟨v, hmem.1, hst, hst, rfl, rfl, rfl⟩

/-- C6 witness: the aging record of the single listed vehicle of a five
status store, evaluated ten days (864000 seconds) after acquisition. -/
theorem getInventoryAging_correct_witness :
    ∃ v ∈ c6Store.vehicles, v.status = VehicleStatus.listed ∧
      ({ vehicle_id := 1, vin := "1G1AF1F57A7192174", make := "Chevrolet",
         model := "Aveo", year := 2010, status := VehicleStatus.listed,
         acquisition_date := 0, days_in_inventory := 10,
         total_cost := 17500 } : InventoryAging).status = VehicleStatus.listed ∧
      ({ vehicle_id := 1, vin := "1G1AF1F57A7192174", make := "Chevrolet",
         model := "Aveo", year := 2010, status := VehicleStatus.listed,
         acquisition_date := 0, days_in_inventory := 10,
         total_cost := 17500 } : InventoryAging).vehicle_id = v.id ∧
      ({ vehicle_id := 1, vin := "1G1AF1F57A7192174", make := "Chevrolet",
         model := "Aveo", year := 2010, status := VehicleStatus.listed,
         acquisition_date := 0, days_in_inventory := 10,
         total_cost := 17500 } : InventoryAging).days_in_inventory =
        dayDiff 864000 v.acquisition_date ∧
      ({ vehicle_id := 1, vin := "1G1AF1F57A7192174", make := "Chevrolet",
         model := "Aveo", year := 2010, status := VehicleStatus.listed,
         acquisition_date := 0, days_in_inventory := 10,
         total_cost := 17500 } : InventoryAging).total_cost = v.acquisition_cost +
        ((c6Store.expenses.filter (fun e => decide (e.vehicle_id = v.id))).map
          (fun e => e.amount)).sum :=
  getInventoryAging_correct c6Store 864000
    { vehicle_id := 1, vin := "1G1AF1F57A7192174", make := "Chevrolet",
      model := "Aveo", year := 2010, status := VehicleStatus.listed,
      acquisition_date := 0, days_in_inventory := 10, total_cost := 17500 }
    (by
      have h10 : Int.tdiv 864000 86400 = 10 := by decide
      norm_num [getInventoryAging, c6Store, emptyStore, mkVehicle, mkExpense,
        dayDiff, expensesSumFor, h10])

theorem sqlSum_getD (l : List Rat) : (sqlSum l).getD 0 = l.sum := by
  cases l <;> simp [sqlSum]

theorem any_filter_swap {α : Type} (l : List α) (p q : α → Bool) :
    (l.filter p).any q = l.any (fun a => q a && p a) := by
  induction l with
  | nil => rfl
  | cons a l ih =>
    by_cases h : p a = true <;>
      simp [List.filter_cons, h, List.any_cons, ih]

/-- C7: total_inventory counts the vehicles whose status is neither sold nor
archived, and total_inventory_value is the sum of their acquisition costs
plus the sum of the amounts of the expenses attached to those same
vehicles. -/
theorem dashboard_inventory_correct (s : Store) (now startOfMonth : Int) :
    (getDashboardKpis s now startOfMonth).total_inventory =
      (s.vehicles.filter notSoldOrArchived).length ∧
    (getDashboardKpis s now startOfMonth).total_inventory_value =
      ((s.vehicles.filter notSoldOrArchived).map (fun v => v.acquisition_cost)).sum +
      ((s.expenses.filter (fun e =>
          (s.vehicles.filter notSoldOrArchived).any
            (fun v => decide (v.id = e.vehicle_id)))).map (fun e => e.amount)).sum := by
  have hpred : ∀ e : Expense,
      ((s.vehicles.filter notSoldOrArchived).any
        (fun v => decide (v.id = e.vehicle_id))) =
        s.vehicles.any (fun v => decide (v.id = e.vehicle_id) && notSoldOrArchived v) :=
    fun e => any_filter_swap s.vehicles notSoldOrArchived
      (fun v => decide (v.id = e.vehicle_id))
  constructor
  · rfl
  · simp only [getDashboardKpis, sqlSum_getD, hpred]

theorem groupByExpenseType_singleton (e : Expense) :
    groupByExpenseType [e] =
      [{ expense_type := e.expense_type, total_amount := e.amount, count := 1 }] := by
  cases he : e.expense_type <;>
    simp [groupByExpenseType, allExpenseTypes, he]

/-- C3 counterexample: with only `start_date = 5` supplied, on a store whose
single vehicle was acquired at time 0 and whose single expense is dated 10,
getExpenseBreakdown (filtering `expense_date >= 5`) returns the repairs
group, while exportExpenseBreakdownToCSV (filtering the vehicle's
`acquisition_date >= 5`) excludes it and emits the bare header — so the CSV
is not the header plus one row per breakdown record. -/
theorem exportExpenseBreakdownToCSV_date_divergence :
    exportExpenseBreakdownToCSV c3Store c3Filters = breakdownCsvHeader ∧
    getExpenseBreakdown c3Store c3Filters =
      [{ expense_type := ExpenseType.repairs, total_amount := 5, count := 1 }] ∧
    exportExpenseBreakdownToCSV c3Store c3Filters ≠
      breakdownCsvHeader ++
        String.join ((getExpenseBreakdown c3Store c3Filters).map breakdownCsvRow) := by
  have h1 : exportExpenseBreakdownToCSV c3Store c3Filters = breakdownCsvHeader := by
    norm_num [exportExpenseBreakdownToCSV, c3Store, c3Filters, noFilters, emptyStore,
      mkVehicle, mkExpense, strFilterTruthy, vehicleAttrOk, groupByExpenseType,
      allExpenseTypes, String.join]
  have h2 : getExpenseBreakdown c3Store c3Filters =
      [{ expense_type := ExpenseType.repairs, total_amount := 5, count := 1 }] := by
    have hrows : getExpenseBreakdown c3Store c3Filters =
        groupByExpenseType [mkExpense 1 1 none 5 ExpenseType.repairs 10] := by
      norm_num [getExpenseBreakdown, c3Store, c3Filters, noFilters, emptyStore,
        mkExpense, strFilterTruthy, expenseDateOk]
    rw [hrows, groupByExpenseType_singleton]
    simp [mkExpense]
  refine ⟨h1, h2, ?_⟩
  rw [h1, h2]
  intro hcontra
  have hlen := congrArg String.length hcontra
  have hq : ("\"" : String).length = 1 := rfl
  simp only [String.length_append, List.map_cons, List.map_nil, String.join,
    List.foldl, breakdownCsvRow, hq] at hlen
  omega

/-- C3 (amended): exportExpenseBreakdownToCSV emits the fixed header plus one
formatted row (double-quoted expense_type, two-decimal total, count, trailing
newline) per breakdown record; its date filters, however, select expenses by
the VEHICLE's acquisition_date (joining expenses to vehicles whenever any
filter is supplied), not by expense_date as getExpenseBreakdown does — so the
two operations agree on every input in which no date filter is supplied. -/
theorem exportExpenseBreakdownToCSV_no_date_filters (s : Store)
    (f : FinancialReportFilters) (hs : f.start_date = none) (he : f.end_date = none) :
    exportExpenseBreakdownToCSV s f =
      breakdownCsvHeader ++
        String.join ((getExpenseBreakdown s f).map breakdownCsvRow) := by
  by_cases hj : (f.status.isSome || strFilterTruthy f.make || strFilterTruthy f.model) = true
  · simp [exportExpenseBreakdownToCSV, getExpenseBreakdown, hs, he, expenseDateOk, hj]
  · have hj2 : (f.status.isSome || strFilterTruthy f.make || strFilterTruthy f.model) = false := by
      simpa using hj
    have hfilter : s.expenses.filter (expenseDateOk f) = s.expenses :=
      List.filter_eq_self.mpr (fun e hm => by simp [expenseDateOk, hs, he])
    simp [exportExpenseBreakdownToCSV, getExpenseBreakdown, hs, he, hj2, hfilter]

/-- C3 witness: the agreement evaluated with a make-only filter on the
concrete store. -/
theorem exportExpenseBreakdownToCSV_no_date_filters_witness :
    exportExpenseBreakdownToCSV c3Store c3MakeFilters =
      breakdownCsvHeader ++
        String.join ((getExpenseBreakdown c3Store c3MakeFilters).map breakdownCsvRow) :=
  exportExpenseBreakdownToCSV_no_date_filters c3Store c3MakeFilters rfl rfl
